import Mathlib

/-!
Verification of the cluster-connection state provider
(src/providers/cluster.tsx of bbachain/bbascan).

The embedding models the three exported pieces the specification talks
about: the endpoint resolver `clusterUrl`, the reducer `clusterReducer`,
and the async connect operation `updateCluster`.  External collaborators
(the browser URL constructor, the RPC client, environment variables and
the window hostname) are passed in explicitly through `Env` / `World`
records; the connect operation returns the ordered list of dispatched
actions together with flags recording which effects were performed.
-/

namespace Bbascan

/-- `enum ClusterStatus { Connected, Connecting, Failure }`. -/
inductive ClusterStatus where
  | Connected
  | Connecting
  | Failure
deriving DecidableEq, Repr

/-- `enum Cluster { MainnetBeta, Testnet, Custom }`. -/
inductive Cluster where
  | MainnetBeta
  | Testnet
  | Custom
deriving DecidableEq, Repr

/-- `const CLUSTERS = [Cluster.MainnetBeta, Cluster.Testnet, Cluster.Custom]`. -/
def CLUSTERS : List Cluster := [.MainnetBeta, .Testnet, .Custom]

/-- `const MAINNET_URL = "https://api-mainnet.bbachain.com"`. -/
def MAINNET_URL : String := "https://api-mainnet.bbachain.com"

/-- `const TESTNET_URL = "https://api-testnet.bbachain.com"`. -/
def TESTNET_URL : String := "https://api-testnet.bbachain.com"

/-- JavaScript `String.prototype.replace` with a plain-string pattern
replaces only the first occurrence of the pattern; this is the list-level
worker. -/
def listReplaceFirst (pat repl : List Char) : List Char → List Char
  | [] => if pat.isPrefixOf ([] : List Char) then repl else []
  | c :: rest =>
    if pat.isPrefixOf (c :: rest) then repl ++ (c :: rest).drop pat.length
    else c :: listReplaceFirst pat repl rest

/-- JavaScript `s.replace(pat, repl)` for a plain-string `pat`. -/
def jsReplaceFirst (s pat repl : String) : String :=
  String.mk (listReplaceFirst pat.data repl.data s.data)

/-- The ambient browser / process environment read by `clusterUrl`:
`process.env.REACT_APP_MAINNET_RPC_URL`, `process.env.REACT_APP_TESTNET_RPC_URL`
and `window.location.hostname`. -/
structure Env where
  mainnetRpcUrl : Option String
  testnetRpcUrl : Option String
  hostname : String

/-- The closure `modifyUrl` inside `clusterUrl`: the identity on
localhost, otherwise rewrites the first "api" segment to "explorer-api". -/
def modifyUrl (env : Env) (url : String) : String :=
  if env.hostname = "localhost" then url
  else jsReplaceFirst url "api" "explorer-api"

/-- `clusterUrl(cluster, customUrl)`: Custom returns the raw custom URL;
the built-in clusters return the environment override if present, else the
built-in default passed through `modifyUrl`. -/
def clusterUrl (env : Env) (cluster : Cluster) (customUrl : String) : String :=
  match cluster with
  | .MainnetBeta => env.mainnetRpcUrl.getD (modifyUrl env MAINNET_URL)
  | .Testnet => env.testnetRpcUrl.getD (modifyUrl env TESTNET_URL)
  | .Custom => customUrl

/-- Payload of `getEpochSchedule` (shape of the external RPC client's
`EpochSchedule`). -/
structure EpochSchedule where
  slotsPerEpoch : Nat
  leaderScheduleSlotOffset : Nat
  warmup : Bool
  firstNormalEpoch : Nat
  firstNormalSlot : Nat
deriving DecidableEq, Repr

/-- Payload of `getEpochInfo` (shape of the external RPC client's
`EpochInfo`). -/
structure EpochInfo where
  epoch : Nat
  slotIndex : Nat
  slotsInEpoch : Nat
  absoluteSlot : Nat
  blockHeight : Option Nat
  transactionCount : Option Nat
deriving DecidableEq, Repr

/-- `interface ClusterInfo`: the four fields aggregated on a successful
connect. -/
structure ClusterInfo where
  firstAvailableBlock : Nat
  epochSchedule : EpochSchedule
  epochInfo : EpochInfo
  genesisHash : String
deriving DecidableEq, Repr

/-- `interface State` (and `type Action = State`): the optional
`clusterInfo` field is `none` when absent in the TS object literal. -/
structure State where
  cluster : Cluster
  customUrl : String
  clusterInfo : Option ClusterInfo := none
  status : ClusterStatus
deriving DecidableEq, Repr

/-- `function clusterReducer(state, action)`: Connected/Failure actions
are accepted only when their (cluster, customUrl) pair matches the current
state's; Connecting actions are accepted unconditionally. -/
def clusterReducer (state action : State) : State :=
  match action.status with
  | .Connected | .Failure =>
    if state.cluster ≠ action.cluster ∨ state.customUrl ≠ action.customUrl then
      state
    else action
  | .Connecting => action

/-- `const DEFAULT_CLUSTER = Cluster.MainnetBeta`. -/
def DEFAULT_CLUSTER : Cluster := .MainnetBeta

/-- `const DEFAULT_CUSTOM_URL = "http://localhost:8899"`. -/
def DEFAULT_CUSTOM_URL : String := "http://localhost:8899"

/-- The initial reducer state passed to `React.useReducer` in
`ClusterProvider` (no `clusterInfo`, status Connecting). -/
def initialState : State :=
  { cluster := DEFAULT_CLUSTER, customUrl := DEFAULT_CUSTOM_URL,
    clusterInfo := none, status := .Connecting }

/-- One RPC endpoint of the external client: the outcome of each of the
four fetches issued by the connect operation against that endpoint
(`Except.error` models a rejected promise). -/
structure RpcEndpoint where
  getFirstAvailableBlock : Except String Nat
  getEpochSchedule : Except String EpochSchedule
  getEpochInfo : Except String EpochInfo
  getGenesisHash : Except String String

/-- The external world seen by `updateCluster`: the environment consumed
by `clusterUrl`, the browser URL constructor (`validUrl u` is true exactly
when `new URL(u)` does not throw), and the RPC client reached at each
endpoint string. -/
structure World where
  env : Env
  validUrl : String → Bool
  rpc : String → RpcEndpoint

/-- `Promise.all` over the four fetches: resolves with the quadruple when
every fetch resolves, rejects as soon as any fetch rejects. -/
def promiseAll4 (ep : RpcEndpoint) :
    Except String (Nat × EpochSchedule × EpochInfo × String) :=
  match ep.getFirstAvailableBlock, ep.getEpochSchedule,
      ep.getEpochInfo, ep.getGenesisHash with
  | .ok fab, .ok sched, .ok info, .ok hash => .ok (fab, sched, info, hash)
  | .error e, _, _, _ => .error e
  | _, .error e, _, _ => .error e
  | _, _, .error e, _ => .error e
  | _, _, _, .error e => .error e

/-- The action dispatched at the start of every connect attempt. -/
def connectingState (cluster : Cluster) (customUrl : String) : State :=
  { cluster, customUrl, clusterInfo := none, status := .Connecting }

/-- The action dispatched from the catch block of `updateCluster`. -/
def failureState (cluster : Cluster) (customUrl : String) : State :=
  { cluster, customUrl, clusterInfo := none, status := .Failure }

/-- The action dispatched on a successful connect. -/
def connectedState (cluster : Cluster) (customUrl : String)
    (info : ClusterInfo) : State :=
  { cluster, customUrl, clusterInfo := some info, status := .Connected }

/-- Observable outcome of one run of `async function updateCluster`:
the dispatched actions in order, whether a `Connection` was constructed,
whether the four fetches were issued, and whether `reportError` was
invoked. -/
structure ConnectOutcome where
  dispatched : List State
  connectionOpened : Bool
  fetchesAttempted : Bool
  reportedError : Bool
deriving DecidableEq, Repr

/-- `async function updateCluster(dispatch, cluster, customUrl)`:
dispatch Connecting; validate `customUrl` with `new URL`; on success open
a connection to `clusterUrl(cluster, customUrl)` and jointly await the
four fetches, dispatching Connected with the aggregated info; on any
thrown error report it via `reportError` unless the cluster is Custom and
dispatch Failure. -/
def updateCluster (w : World) (cluster : Cluster) (customUrl : String) :
    ConnectOutcome :=
  if w.validUrl customUrl then
    match promiseAll4 (w.rpc (clusterUrl w.env cluster customUrl)) with
    | .ok (firstAvailableBlock, epochSchedule, epochInfo, genesisHash) =>
      { dispatched := [connectingState cluster customUrl,
          connectedState cluster customUrl
            ⟨firstAvailableBlock, epochSchedule, epochInfo, genesisHash⟩],
        connectionOpened := true, fetchesAttempted := true,
        reportedError := false }
    | .error _ =>
      { dispatched := [connectingState cluster customUrl,
          failureState cluster customUrl],
        connectionOpened := true, fetchesAttempted := true,
        reportedError := decide (cluster ≠ Cluster.Custom) }
  else
    { dispatched := [connectingState cluster customUrl,
        failureState cluster customUrl],
      connectionOpened := false, fetchesAttempted := false,
      reportedError := decide (cluster ≠ Cluster.Custom) }

/-- An action is a program action when some run of `updateCluster`
dispatches it (every dispatch in the program goes through
`updateCluster`). -/
def ProgramAction (a : State) : Prop :=
  ∃ (w : World) (c : Cluster) (u : String),
    a ∈ (updateCluster w c u).dispatched

/-- States reachable from the initial state by feeding program actions
through the reducer. -/
inductive Reachable : State → Prop where
  | init : Reachable initialState
  | step (s a : State) : Reachable s → ProgramAction a →
      Reachable (clusterReducer s a)

/-! ## Helper lemmas (shared) -/

/-- Characterization of the reducer as a single conditional. -/
theorem clusterReducer_eq (s a : State) :
    clusterReducer s a =
      if a.status = ClusterStatus.Connecting then a
      else if s.cluster = a.cluster ∧ s.customUrl = a.customUrl then a
      else s := by
  obtain ⟨ac, au, aci, ast⟩ := a
  cases ast <;> simp only [clusterReducer] <;>
    by_cases hc : s.cluster = ac <;> by_cases hu : s.customUrl = au <;>
    simp [hc, hu]

/-- The reducer always returns either the current state or the action. -/
theorem clusterReducer_cases (s a : State) :
    clusterReducer s a = s ∨ clusterReducer s a = a := by
  rw [clusterReducer_eq]
  split
  · exact Or.inr rfl
  · split
    · exact Or.inr rfl
    · exact Or.inl rfl

/-- Every action dispatched by `updateCluster` carries `clusterInfo` only
when its status is Connected. -/
theorem dispatched_info_invariant (w : World) (c : Cluster) (u : String) :
    ∀ a ∈ (updateCluster w c u).dispatched,
      a.status ≠ ClusterStatus.Connected → a.clusterInfo = none := by
  unfold updateCluster
  split
  · split
    · intro a ha
      simp only [List.mem_cons, List.not_mem_nil, or_false] at ha
      rcases ha with ha | ha <;> subst ha <;>
        simp [connectingState, connectedState]
    · intro a ha
      simp only [List.mem_cons, List.not_mem_nil, or_false] at ha
      rcases ha with ha | ha <;> subst ha <;>
        simp [connectingState, failureState]
  · intro a ha
    simp only [List.mem_cons, List.not_mem_nil, or_false] at ha
    rcases ha with ha | ha <;> subst ha <;>
      simp [connectingState, failureState]

/-- `Promise.all` rejects as soon as any of the four fetches rejects. -/
theorem promiseAll4_error_of_any (ep : RpcEndpoint)
    (h : (∃ e, ep.getFirstAvailableBlock = Except.error e) ∨
         (∃ e, ep.getEpochSchedule = Except.error e) ∨
         (∃ e, ep.getEpochInfo = Except.error e) ∨
         (∃ e, ep.getGenesisHash = Except.error e)) :
    ∃ e, promiseAll4 ep = Except.error e := by
  rcases hfa : ep.getFirstAvailableBlock with e1 | v1 <;>
    rcases hes : ep.getEpochSchedule with e2 | v2 <;>
    rcases hei : ep.getEpochInfo with e3 | v3 <;>
    rcases hgh : ep.getGenesisHash with e4 | v4 <;>
    simp only [promiseAll4, hfa, hes, hei, hgh] <;>
    simp [hfa, hes, hei, hgh] at h ⊢

/-- `Promise.all` resolves exactly when every one of the four fetches
resolves, and then carries all four results. -/
theorem promiseAll4_ok_iff (ep : RpcEndpoint)
    (fab : Nat) (sched : EpochSchedule) (info : EpochInfo) (hash : String) :
    promiseAll4 ep = Except.ok (fab, sched, info, hash) ↔
      (ep.getFirstAvailableBlock = Except.ok fab ∧
       ep.getEpochSchedule = Except.ok sched ∧
       ep.getEpochInfo = Except.ok info ∧
       ep.getGenesisHash = Except.ok hash) := by
  rcases hfa : ep.getFirstAvailableBlock with e1 | v1 <;>
    rcases hes : ep.getEpochSchedule with e2 | v2 <;>
    rcases hei : ep.getEpochInfo with e3 | v3 <;>
    rcases hgh : ep.getGenesisHash with e4 | v4 <;>
    simp [promiseAll4, hfa, hes, hei, hgh, and_assoc, eq_comm]

/-! ## Concrete sample data for witnesses -/

/-- A sample epoch schedule payload. -/
def sampleSchedule : EpochSchedule := ⟨432000, 432000, false, 0, 0⟩

/-- A sample epoch info payload. -/
def sampleEpochInfo : EpochInfo := ⟨10, 5, 432000, 4320005, some 4000000, some 123456⟩

/-- A sample aggregated cluster info. -/
def sampleInfo : ClusterInfo := ⟨17, sampleSchedule, sampleEpochInfo, "GenesisHash1111"⟩

/-- An endpoint on which all four fetches resolve. -/
def okEndpoint : RpcEndpoint :=
  ⟨Except.ok 17, Except.ok sampleSchedule, Except.ok sampleEpochInfo,
   Except.ok "GenesisHash1111"⟩

/-- An endpoint on which the epoch-info fetch rejects. -/
def netFailEndpoint : RpcEndpoint :=
  ⟨Except.ok 17, Except.ok sampleSchedule, Except.error "timeout",
   Except.ok "GenesisHash1111"⟩

/-- A local environment with no overrides. -/
def localEnv : Env := ⟨none, none, "localhost"⟩

/-- A world in which every URL string is rejected by the URL constructor. -/
def rejectUrlWorld : World := ⟨localEnv, fun _ => false, fun _ => okEndpoint⟩

/-- A world in which every connect attempt fully succeeds. -/
def okWorld : World := ⟨localEnv, fun _ => true, fun _ => okEndpoint⟩

/-- A world in which the URL is accepted but one fetch rejects. -/
def netFailWorld : World := ⟨localEnv, fun _ => true, fun _ => netFailEndpoint⟩

/-! ## Claim theorems -/

/-- C1: For every current state and every action with status Connected or
Failure, if the action's (cluster, customUrl) pair differs from the
current state's pair then `clusterReducer` returns the current state
unchanged; if the pair matches, the action becomes the new state. -/
theorem clusterReducer_stale_guard (s a : State)
    (h : a.status = ClusterStatus.Connected ∨ a.status = ClusterStatus.Failure) :
    (¬(s.cluster = a.cluster ∧ s.customUrl = a.customUrl) →
      clusterReducer s a = s) ∧
    ((s.cluster = a.cluster ∧ s.customUrl = a.customUrl) →
      clusterReducer s a = a) := by
  have hnc : ¬ a.status = ClusterStatus.Connecting := by
    rcases h with h | h <;> simp [h]
  rw [clusterReducer_eq, if_neg hnc]
  constructor
  · intro hne
    rw [if_neg hne]
  · intro heq
    rw [if_pos heq]

/-- Witness for C1 at concrete states: a stale Failure action (different
customUrl) is dropped, and a matching Connected action is accepted. -/
theorem clusterReducer_stale_guard_witness :
    clusterReducer (connectingState Cluster.Testnet "http://a")
        (failureState Cluster.Testnet "http://b") =
      connectingState Cluster.Testnet "http://a" ∧
    clusterReducer (connectingState Cluster.Testnet "http://a")
        (connectedState Cluster.Testnet "http://a" sampleInfo) =
      connectedState Cluster.Testnet "http://a" sampleInfo := by
  constructor
  · exact (clusterReducer_stale_guard
      (connectingState Cluster.Testnet "http://a")
      (failureState Cluster.Testnet "http://b") (Or.inr rfl)).1 (by decide)
  · exact (clusterReducer_stale_guard
      (connectingState Cluster.Testnet "http://a")
      (connectedState Cluster.Testnet "http://a" sampleInfo) (Or.inl rfl)).2
      (by decide)

/-- C9 (implicit): acceptance of a Connected or Failure action depends
only on the (cluster, customUrl) identity match, not on the current
status: the reducer's result is exactly `if pair matches then action else
state`, an expression independent of `s.status`. -/
theorem clusterReducer_ignores_current_status (s a : State)
    (h : a.status = ClusterStatus.Connected ∨ a.status = ClusterStatus.Failure) :
    clusterReducer s a =
      if s.cluster = a.cluster ∧ s.customUrl = a.customUrl then a else s := by
  have hnc : ¬ a.status = ClusterStatus.Connecting := by
    rcases h with h | h <;> simp [h]
  rw [clusterReducer_eq, if_neg hnc]

/-- Witness for C9: a state that is already Connected is replaced by a
later Failure action carrying the same (cluster, customUrl). -/
theorem clusterReducer_ignores_current_status_witness :
    clusterReducer (connectedState Cluster.Testnet "http://a" sampleInfo)
        (failureState Cluster.Testnet "http://a") =
      failureState Cluster.Testnet "http://a" := by
  have h := clusterReducer_ignores_current_status
    (connectedState Cluster.Testnet "http://a" sampleInfo)
    (failureState Cluster.Testnet "http://a") (Or.inr rfl)
  simpa using h

/-- C4: `clusterUrl` returns the custom URL verbatim for Custom; for
MainnetBeta and Testnet it returns the environment override when set,
otherwise the built-in default, with the "api" → "explorer-api" segment
rewrite applied exactly when the hostname is not "localhost". -/
theorem clusterUrl_resolution (env : Env) (u : String) :
    clusterUrl env Cluster.Custom u = u ∧
    clusterUrl env Cluster.MainnetBeta u =
      env.mainnetRpcUrl.getD
        (if env.hostname = "localhost" then MAINNET_URL
         else "https://explorer-api-mainnet.bbachain.com") ∧
    clusterUrl env Cluster.Testnet u =
      env.testnetRpcUrl.getD
        (if env.hostname = "localhost" then TESTNET_URL
         else "https://explorer-api-testnet.bbachain.com") := by
  refine ⟨rfl, ?_, ?_⟩ <;>
    simp only [clusterUrl, modifyUrl] <;>
    split <;> rfl

/-- C7: the reducer accepts any Connecting action unconditionally, and
every run of `updateCluster` dispatches the Connecting action first, in
every world (hence before URL validation and before any network call). -/
theorem connecting_first_and_unconditional :
    (∀ s a : State, a.status = ClusterStatus.Connecting →
      clusterReducer s a = a) ∧
    (∀ (w : World) (c : Cluster) (u : String),
      (updateCluster w c u).dispatched.head? =
        some (connectingState c u)) := by
  constructor
  · intro s a h
    rw [clusterReducer_eq, if_pos h]
  · intro w c u
    unfold updateCluster
    split
    · split <;> rfl
    · rfl

/-- Witness for C7: a Connecting action replaces a Connected state, and
the first dispatch is Connecting even in a world that rejects the URL. -/
theorem connecting_first_and_unconditional_witness :
    clusterReducer (connectedState Cluster.Testnet "http://a" sampleInfo)
        (connectingState Cluster.Custom "http://b") =
      connectingState Cluster.Custom "http://b" ∧
    (updateCluster rejectUrlWorld Cluster.Custom "not a url").dispatched.head? =
      some (connectingState Cluster.Custom "not a url") :=
  ⟨connecting_first_and_unconditional.1
      (connectedState Cluster.Testnet "http://a" sampleInfo)
      (connectingState Cluster.Custom "http://b") rfl,
   connecting_first_and_unconditional.2 rejectUrlWorld Cluster.Custom "not a url"⟩

/-- C2: for the Custom cluster, when the custom URL string is rejected by
the URL constructor, the connect operation dispatches Failure (after the
initial Connecting dispatch) and performs no network effect: no client
connection is opened and none of the four fetches is attempted. -/
theorem custom_malformed_url_no_network (w : World) (u : String)
    (h : w.validUrl u = false) :
    (updateCluster w Cluster.Custom u).dispatched =
      [connectingState Cluster.Custom u, failureState Cluster.Custom u] ∧
    (updateCluster w Cluster.Custom u).connectionOpened = false ∧
    (updateCluster w Cluster.Custom u).fetchesAttempted = false := by
  simp [updateCluster, h]

/-- Witness for C2 at the concrete malformed input "not a url". -/
theorem custom_malformed_url_no_network_witness :
    (updateCluster rejectUrlWorld Cluster.Custom "not a url").dispatched =
      [connectingState Cluster.Custom "not a url",
       failureState Cluster.Custom "not a url"] ∧
    (updateCluster rejectUrlWorld Cluster.Custom "not a url").connectionOpened
      = false ∧
    (updateCluster rejectUrlWorld Cluster.Custom "not a url").fetchesAttempted
      = false :=
  custom_malformed_url_no_network rejectUrlWorld "not a url" rfl

/-- C3: `reportError` is invoked exactly when the connect attempt failed
(a Failure action was dispatched) and the cluster is not Custom; so a
failed connect on Custom never reports, and a failed connect on Testnet
or MainnetBeta always does. -/
theorem reportError_iff_failed_not_custom (w : World) (c : Cluster)
    (u : String) :
    (updateCluster w c u).reportedError = true ↔
      (failureState c u ∈ (updateCluster w c u).dispatched ∧
       c ≠ Cluster.Custom) := by
  unfold updateCluster
  split
  · split
    · simp [connectingState, connectedState, failureState, State.mk.injEq]
    · simp [connectingState, failureState, State.mk.injEq]
  · simp [connectingState, failureState, State.mk.injEq]

/-- C5: when the URL is accepted and all four fetches resolve, the second
dispatched action is Connected and its `clusterInfo` holds all four
fields: first available block, epoch schedule, epoch info, genesis hash. -/
theorem connect_success_all_fields (w : World) (c : Cluster) (u : String)
    (hv : w.validUrl u = true)
    (fab : Nat) (sched : EpochSchedule) (info : EpochInfo) (hash : String)
    (h1 : (w.rpc (clusterUrl w.env c u)).getFirstAvailableBlock = Except.ok fab)
    (h2 : (w.rpc (clusterUrl w.env c u)).getEpochSchedule = Except.ok sched)
    (h3 : (w.rpc (clusterUrl w.env c u)).getEpochInfo = Except.ok info)
    (h4 : (w.rpc (clusterUrl w.env c u)).getGenesisHash = Except.ok hash) :
    (updateCluster w c u).dispatched =
      [connectingState c u,
       connectedState c u ⟨fab, sched, info, hash⟩] := by
  have hall : promiseAll4 (w.rpc (clusterUrl w.env c u)) =
      Except.ok (fab, sched, info, hash) :=
    (promiseAll4_ok_iff _ fab sched info hash).mpr ⟨h1, h2, h3, h4⟩
  simp [updateCluster, hv, hall]

/-- Witness for C5: a fully successful connect to MainnetBeta. -/
theorem connect_success_all_fields_witness :
    (updateCluster okWorld Cluster.MainnetBeta "http://localhost:8899").dispatched =
      [connectingState Cluster.MainnetBeta "http://localhost:8899",
       connectedState Cluster.MainnetBeta "http://localhost:8899" sampleInfo] :=
  connect_success_all_fields okWorld Cluster.MainnetBeta
    "http://localhost:8899" rfl 17 sampleSchedule sampleEpochInfo
    "GenesisHash1111" rfl rfl rfl rfl

/-- C8: the four fetches fail as a unit: when the URL is accepted but any
one of the four fetches rejects, the connect operation dispatches
Connecting then Failure, and no dispatched action is Connected (never a
Connected state with partial info). -/
theorem fetches_fail_as_unit (w : World) (c : Cluster) (u : String)
    (hv : w.validUrl u = true)
    (hfail :
      (∃ e, (w.rpc (clusterUrl w.env c u)).getFirstAvailableBlock =
        Except.error e) ∨
      (∃ e, (w.rpc (clusterUrl w.env c u)).getEpochSchedule =
        Except.error e) ∨
      (∃ e, (w.rpc (clusterUrl w.env c u)).getEpochInfo =
        Except.error e) ∨
      (∃ e, (w.rpc (clusterUrl w.env c u)).getGenesisHash =
        Except.error e)) :
    (updateCluster w c u).dispatched =
      [connectingState c u, failureState c u] ∧
    ∀ a ∈ (updateCluster w c u).dispatched,
      a.status ≠ ClusterStatus.Connected := by
  obtain ⟨e, he⟩ := promiseAll4_error_of_any _ hfail
  refine ⟨by simp [updateCluster, hv, he], ?_⟩
  intro a ha
  simp only [updateCluster, hv, if_true, he] at ha
  simp only [List.mem_cons, List.not_mem_nil, or_false] at ha
  rcases ha with ha | ha <;> subst ha <;>
    simp [connectingState, failureState]

/-- Witness for C8: the epoch-info fetch rejects with "timeout". -/
theorem fetches_fail_as_unit_witness :
    (updateCluster netFailWorld Cluster.Testnet "http://localhost:8899").dispatched =
      [connectingState Cluster.Testnet "http://localhost:8899",
       failureState Cluster.Testnet "http://localhost:8899"] ∧
    ∀ a ∈ (updateCluster netFailWorld Cluster.Testnet
        "http://localhost:8899").dispatched,
      a.status ≠ ClusterStatus.Connected :=
  fetches_fail_as_unit netFailWorld Cluster.Testnet "http://localhost:8899"
    rfl (Or.inr (Or.inr (Or.inl ⟨"timeout", rfl⟩)))

/-- C10 (implicit): the URL validation applies to `customUrl` for every
cluster, not only Custom: with a rejected custom URL the outcome for any
cluster is Connecting then Failure with no connection opened and no fetch
attempted. -/
theorem malformed_url_fails_any_cluster (w : World) (c : Cluster)
    (u : String) (h : w.validUrl u = false) :
    (updateCluster w c u).dispatched =
      [connectingState c u, failureState c u] ∧
    (updateCluster w c u).connectionOpened = false ∧
    (updateCluster w c u).fetchesAttempted = false := by
  simp [updateCluster, h]

/-- Witness for C10: MainnetBeta with the malformed custom URL
"not a url" even though the custom URL is not the endpoint connected to. -/
theorem malformed_url_fails_any_cluster_witness :
    (updateCluster rejectUrlWorld Cluster.MainnetBeta "not a url").dispatched =
      [connectingState Cluster.MainnetBeta "not a url",
       failureState Cluster.MainnetBeta "not a url"] ∧
    (updateCluster rejectUrlWorld Cluster.MainnetBeta "not a url").connectionOpened
      = false ∧
    (updateCluster rejectUrlWorld Cluster.MainnetBeta "not a url").fetchesAttempted
      = false :=
  malformed_url_fails_any_cluster rejectUrlWorld Cluster.MainnetBeta
    "not a url" rfl

/-- C6: in every state reachable from the initial Connecting state via
the reducer applied to program-dispatched actions, `clusterInfo` is
populated only when the status is Connected: Connecting and Failure
states never carry a `clusterInfo`. -/
theorem reachable_info_only_when_connected (s : State) (hs : Reachable s) :
    s.status ≠ ClusterStatus.Connected → s.clusterInfo = none := by
  induction hs with
  | init => intro _; rfl
  | step s' a _ ha ih =>
    intro h
    rcases clusterReducer_cases s' a with hc | hc <;> rw [hc] at h ⊢
    · exact ih h
    · obtain ⟨w, c, u, hmem⟩ := ha
      exact dispatched_info_invariant w c u a hmem h

/-- Witness for C6 at the initial state, which is Connecting. -/
theorem reachable_info_only_when_connected_witness :
    initialState.clusterInfo = none :=
  reachable_info_only_when_connected initialState Reachable.init (by decide)

end Bbascan
